import Mathlib

/-!
Verification of the Sync/Async API demo (FastAPI service).

The definitions below are a shallow embedding of the repository's code:
`src/main.py` (rate limiting, callback-URL egress validation) and
`src/services.py` (request ledger updates, callback delivery with retry,
backoff and a per-destination circuit breaker).  Machine time is modelled
as `ℚ` (the code uses `time.time()` floats only through comparisons and
sums), Python dicts as insertion-ordered association lists, and the
network as an oracle giving each delivery attempt's outcome.
-/

namespace SyncAsyncApi

/-! ### Python dict as insertion-ordered association list -/

/-- `d.get(k)` on a Python dict modelled as an association list. -/
def alookup {α : Type} : List (String × α) → String → Option α
  | [], _ => none
  | (k, v) :: rest, key => if k = key then some v else alookup rest key

/-- `d[k] = v`: replace in place if the key exists, else append (insertion order). -/
def aset {α : Type} : List (String × α) → String → α → List (String × α)
  | [], key, v => [(key, v)]
  | (k, w) :: rest, key, v =>
    if k = key then (key, v) :: rest else (k, w) :: aset rest key v

/-- `del d[k]`: remove the key's entry.  A Python dict holds each key at
most once, so removing every matching entry is the same operation. -/
def aerase {α : Type} (l : List (String × α)) (key : String) : List (String × α) :=
  l.filter (fun p => !(p.1 == key))

/-! ### `urllib.parse.urlparse` — the fragment the service uses

`src/services.py` uses `urlparse(url).netloc` (`_get_domain`) and
`src/main.py` uses `parsed.scheme` and `parsed.hostname`.  The model below
follows CPython's `urlsplit`: a scheme is recognised when the text before
the first `:` is a nonempty run of scheme characters starting with a
letter; the netloc is the text between `//` and the next `/`, `?` or `#`;
the hostname is the part of the netloc after the last `@`, inside `[...]`
when bracketed and otherwise up to the first `:`, lowercased, `None` when
empty. -/

/-- Characters allowed in a URL scheme (CPython `scheme_chars`). -/
def schemeChar (c : Char) : Bool :=
  c.isAlpha || c.isDigit || c = '+' || c = '-' || c = '.'

/-- Scan for the first `:`; succeed when every character before it is a
scheme character (accumulator holds them reversed). -/
def splitSchemeAux : List Char → List Char → Option (List Char × List Char)
  | _, [] => none
  | acc, c :: rest =>
    if c = ':' then some (acc.reverse, rest)
    else if schemeChar c then splitSchemeAux (c :: acc) rest
    else none

/-- Split off the scheme (lowercased) when present; otherwise the scheme is
empty and the input is untouched. -/
def splitScheme (url : List Char) : List Char × List Char :=
  match splitSchemeAux [] url with
  | some (pre, rest) =>
    match pre with
    | [] => ([], url)
    | c :: _ => if c.isAlpha then (pre.map Char.toLower, rest) else ([], url)
  | none => ([], url)

/-- The netloc: after a leading `//`, everything up to `/`, `?` or `#`. -/
def netlocOf : List Char → List Char
  | '/' :: '/' :: rest => rest.takeWhile (fun c => !(c = '/' || c = '?' || c = '#'))
  | _ => []

/-- `netloc.rpartition('@')`: the part after the last `@` (all of it when
there is no `@`). -/
def afterLastAt (l : List Char) : List Char :=
  (l.reverse.takeWhile (fun c => c ≠ '@')).reverse

/-- CPython `_hostinfo` + the `hostname` property: strip userinfo, take the
bracketed part for IPv6 literals and otherwise stop at the port separator,
lowercase, `None` when empty. -/
def hostnameOf (netloc : List Char) : Option (List Char) :=
  let hostinfo := afterLastAt netloc
  let host :=
    match hostinfo.dropWhile (fun c => c ≠ '[') with
    | _ :: bracketed => bracketed.takeWhile (fun c => c ≠ ']')
    | [] => hostinfo.takeWhile (fun c => c ≠ ':')
  let hl := host.map Char.toLower
  if hl.isEmpty then none else some hl

/-- The components of `urlparse` that the service reads. -/
structure UrlParts where
  scheme : String
  netloc : String
  hostname : Option String
deriving DecidableEq, Repr

/-- `urllib.parse.urlparse`, restricted to the fields the service uses. -/
def urlparse (url : String) : UrlParts :=
  let (sch, rest) := splitScheme url.data
  let nl := netlocOf rest
  { scheme := ⟨sch⟩, netloc := ⟨nl⟩, hostname := (hostnameOf nl).map (fun h => ⟨h⟩) }

/-- `CallbackService._get_domain` (services.py lines 155-158):
`urlparse(url).netloc`. -/
def get_domain (url : String) : String :=
  (urlparse url).netloc

/-! ### `ipaddress.ip_address` — IPv4 literals

`src/main.py` feeds the parsed hostname to `ipaddress.ip_address` and, in
production, rejects private/loopback results.  Dotted-quad IPv4 literals
are modelled (four decimal octets, 1-3 digits, value at most 255, no
leading zeros, as CPython enforces); other host strings simply fail to
parse, matching the `except ValueError: pass` in the endpoint.  (IPv6
literals are not modelled; none of the validator's blocklist paths nor the
claims exercise them, since a non-bracketed hostname never contains `:`.) -/

/-- Decimal digit value. -/
def digitVal (c : Char) : Option Nat :=
  if c.isDigit then some (c.toNat - '0'.toNat) else none

/-- Accumulate a decimal value; fail on a non-digit. -/
def decValueAux : Nat → List Char → Option Nat
  | acc, [] => some acc
  | acc, c :: rest =>
    match digitVal c with
    | some d => decValueAux (acc * 10 + d) rest
    | none => none

/-- One IPv4 octet: 1-3 decimal digits, no leading zero, at most 255. -/
def parseOctet (l : List Char) : Option Nat :=
  if l.isEmpty then none
  else if 3 < l.length then none
  else if 1 < l.length ∧ l.headD 'x' = '0' then none
  else match decValueAux 0 l with
    | some v => if v ≤ 255 then some v else none
    | none => none

/-- Split a character list on a separator (like `str.split`). -/
def splitOnChar (sep : Char) : List Char → List (List Char)
  | [] => [[]]
  | c :: rest =>
    let r := splitOnChar sep rest
    if c = sep then [] :: r
    else
      match r with
      | h :: t => (c :: h) :: t
      | [] => [[c]]

/-- An IPv4 address as four octets. -/
structure IPv4 where
  a : Nat
  b : Nat
  c : Nat
  d : Nat
deriving DecidableEq, Repr

/-- `ipaddress.ip_address` on dotted-quad IPv4 text. -/
def ip_address? (host : List Char) : Option IPv4 :=
  match splitOnChar '.' host with
  | [p1, p2, p3, p4] =>
    match parseOctet p1, parseOctet p2, parseOctet p3, parseOctet p4 with
    | some a, some b, some c, some d => some ⟨a, b, c, d⟩
    | _, _, _, _ => none
  | _ => none

/-- CPython `IPv4Address.is_private` (the `_private_networks` list:
0.0.0.0/8, 10/8, 127/8, 169.254/16, 172.16/12, 192.0.0/29, 192.0.0.170/31,
192.0.2/24, 192.168/16, 198.18/15, 198.51.100/24, 203.0.113/24, 240/4). -/
def IPv4.is_private (ip : IPv4) : Bool :=
  ip.a == 0 || ip.a == 10 || ip.a == 127 ||
  (ip.a == 169 && ip.b == 254) ||
  (ip.a == 172 && decide (16 ≤ ip.b) && decide (ip.b ≤ 31)) ||
  (ip.a == 192 && ip.b == 0 && ip.c == 0 && (decide (ip.d ≤ 7) || ip.d == 170 || ip.d == 171)) ||
  (ip.a == 192 && ip.b == 0 && ip.c == 2) ||
  (ip.a == 192 && ip.b == 168) ||
  (ip.a == 198 && (ip.b == 18 || ip.b == 19)) ||
  (ip.a == 198 && ip.b == 51 && ip.c == 100) ||
  (ip.a == 203 && ip.b == 0 && ip.c == 113) ||
  decide (240 ≤ ip.a)

/-- CPython `IPv4Address.is_loopback`: 127.0.0.0/8. -/
def IPv4.is_loopback (ip : IPv4) : Bool :=
  ip.a == 127

/-! ### Egress validation of the callback URL (`async_endpoint`, main.py 245-339) -/

/-- The machine-readable rejection codes raised (each as HTTP 400) by the
callback-URL validation in `async_endpoint`. -/
inductive RejectCode where
  | INVALID_CALLBACK_URL
  | INVALID_SCHEME
  | BLOCKED_HOST
  | PRIVATE_IP_BLOCKED
  | METADATA_BLOCKED
  | MALFORMED_URL
deriving DecidableEq, Repr

/-- Outcome of the callback-URL validation: accepted, or rejected with a
400 response carrying the given code. -/
inductive EgressCheck where
  | accepted : EgressCheck
  | rejected : RejectCode → EgressCheck
deriving DecidableEq, Repr

/-- `blocked_hosts` (main.py line 283). -/
def blocked_hosts : List String :=
  ["localhost", "127.0.0.1", "0.0.0.0", "::1", "metadata.google.internal"]

/-- `metadata_domains` (main.py lines 313-317). -/
def metadata_domains : List String :=
  ["metadata.google.internal", "169.254.169.254", "metadata.azure.com"]

/-- `s.startswith(pre)` on character lists. -/
def startsWithList : List Char → List Char → Bool
  | _, [] => true
  | [], _ :: _ => false
  | c :: s, p :: ps => c == p && startsWithList s ps

/-- Python `str.startswith`. -/
def pyStartsWith (s pre : String) : Bool :=
  startsWithList s.data pre.data

/-- The callback-URL validation of `async_endpoint` (main.py lines
245-339), with the deployment-mode comparison `environment == 'production'`
already evaluated to a boolean.  Checks in source order: the literal
`http://`/`https://` prefix check, the parsed-scheme check, the blocked-host
list (production only), the private/loopback literal-IP check (production
only), and the cloud-metadata list (every mode). -/
def validate_callback_url_b (url : String) (is_production : Bool) : EgressCheck :=
  if !(pyStartsWith url "http://" || pyStartsWith url "https://") then
    .rejected .INVALID_CALLBACK_URL
  else
    let parsed := urlparse url
    if parsed.scheme ≠ "http" ∧ parsed.scheme ≠ "https" then
      .rejected .INVALID_SCHEME
    else
      match parsed.hostname with
      | none => .accepted
      | some h =>
        if h ∈ blocked_hosts ∧ is_production = true then
          .rejected .BLOCKED_HOST
        else
          let ipPrivate : Bool :=
            match ip_address? h.data with
            | some ip => ip.is_private || ip.is_loopback
            | none => false
          if ipPrivate = true ∧ is_production = true then
            .rejected .PRIVATE_IP_BLOCKED
          else if h ∈ metadata_domains then
            .rejected .METADATA_BLOCKED
          else
            .accepted

/-- The callback-URL validation as called with the `ENVIRONMENT` value
(main.py line 279 reads it and lines 285, 299 compare it to
`'production'`). -/
def validate_callback_url (url environment : String) : EgressCheck :=
  validate_callback_url_b url (environment == "production")

/-! ### Rate limiting (`RateLimiter` and `check_rate_limit`, main.py 30-101) -/

/-- `RateLimiter` (main.py lines 30-53): per-client sliding window of
request timestamps.  `requests` models the `defaultdict(deque)`; a missing
client reads as the empty deque. -/
structure RateLimiter where
  max_requests : Nat
  window_seconds : ℚ
  requests : List (String × List ℚ)
deriving DecidableEq, Repr

/-- The `while client_requests and client_requests[0] <= now - window:
popleft()` loop: drop leading timestamps at or before `now - window`. -/
def pruneOld (window now : ℚ) : List ℚ → List ℚ
  | [] => []
  | t :: ts => if t ≤ now - window then pruneOld window now ts else t :: ts

/-- `RateLimiter.is_allowed` (main.py lines 38-53): prune the client's
window, reject when the remaining count is at or above the limit,
otherwise append `now` and accept.  Returns the decision and the mutated
limiter (touching a `defaultdict` key materialises it). -/
def RateLimiter.is_allowed (rl : RateLimiter) (client_ip : String) (now : ℚ) :
    Bool × RateLimiter :=
  let q := pruneOld rl.window_seconds now ((alookup rl.requests client_ip).getD [])
  if rl.max_requests ≤ q.length then
    (false, { rl with requests := aset rl.requests client_ip q })
  else
    (true, { rl with requests := aset rl.requests client_ip (q ++ [now]) })

/-- Module-level limiter construction (main.py lines 78-82): 50/60s in
production, 1000/60s otherwise, starting empty. -/
def mkRateLimiter (environment : String) : RateLimiter :=
  if environment = "production" then ⟨50, 60, []⟩ else ⟨1000, 60, []⟩

/-- Outcome of the ingress gate: proceed to the handler, or reject the
request with HTTP 429. -/
inductive GateResult where
  | proceed : GateResult
  | rateLimited : GateResult
deriving DecidableEq, Repr

/-- `check_rate_limit` (main.py lines 84-101): skip entirely outside
production; otherwise consult the limiter and raise 429 when not allowed. -/
def check_rate_limit (environment client_ip : String) (now : ℚ) (rl : RateLimiter) :
    GateResult × RateLimiter :=
  if environment ≠ "production" then (.proceed, rl)
  else
    let (allowed, rl') := rl.is_allowed client_ip now
    if allowed then (.proceed, rl') else (.rateLimited, rl')

/-- The `/sync` endpoint's admission gate (main.py line 156:
`Depends(check_rate_limit)`). -/
def sync_endpoint_gate (environment client_ip : String) (now : ℚ) (rl : RateLimiter) :
    GateResult × RateLimiter :=
  check_rate_limit environment client_ip now rl

/-- The `/async` endpoint's admission gate (main.py line 220:
`Depends(check_rate_limit)`). -/
def async_endpoint_gate (environment client_ip : String) (now : ℚ) (rl : RateLimiter) :
    GateResult × RateLimiter :=
  check_rate_limit environment client_ip now rl

/-- Run the gate `n` times for one client, all calls at time `t`,
collecting the per-request outcomes in order. -/
def gateRun (environment client_ip : String) (t : ℚ) :
    Nat → RateLimiter → List GateResult × RateLimiter
  | 0, rl => ([], rl)
  | n + 1, rl =>
    let (r, rl') := check_rate_limit environment client_ip t rl
    let (rs, rl'') := gateRun environment client_ip t n rl'
    (r :: rs, rl'')

/-! ### Callback delivery (`CallbackService`, services.py 144-343) -/

/-- The mutable state and configuration of `CallbackService`
(services.py lines 147-153): retry policy, circuit-breaker thresholds, the
`failed_callbacks` map (domain to failure count) and the
`circuit_breaker_state` map (domain to last failure time). -/
structure CallbackService where
  max_retries : Nat
  retry_delay : ℚ
  circuit_breaker_threshold : Nat
  circuit_breaker_reset_timeout : ℚ
  failed_callbacks : List (String × Nat)
  circuit_breaker_state : List (String × ℚ)
deriving DecidableEq, Repr

/-- `CallbackService.__init__`: 3 retries, 1s base delay, threshold 5,
reset timeout 60s, empty maps. -/
def CallbackService.mkInit : CallbackService :=
  ⟨3, 1, 5, 60, [], []⟩

/-- `CallbackService._is_circuit_open` (services.py lines 160-176).
Returns the answer and the possibly mutated service: the reset branch
(`now - last_failure > reset_timeout`) zeroes the domain's failure count
and deletes its `circuit_breaker_state` entry. -/
def CallbackService.is_circuit_open (svc : CallbackService) (domain : String) (now : ℚ) :
    Bool × CallbackService :=
  match alookup svc.circuit_breaker_state domain with
  | none => (false, svc)
  | some last_failure =>
    let failure_count := (alookup svc.failed_callbacks domain).getD 0
    if failure_count < svc.circuit_breaker_threshold then (false, svc)
    else if svc.circuit_breaker_reset_timeout < now - last_failure then
      (false, { svc with
        failed_callbacks := aset svc.failed_callbacks domain 0,
        circuit_breaker_state := aerase svc.circuit_breaker_state domain })
    else (true, svc)

/-- `CallbackService._record_callback_failure` (services.py lines 178-181):
increment the domain's failure count and stamp `last_failure = time.time()`
(passed in as `now`). -/
def CallbackService.record_callback_failure (svc : CallbackService) (domain : String)
    (now : ℚ) : CallbackService :=
  { svc with
    failed_callbacks :=
      aset svc.failed_callbacks domain ((alookup svc.failed_callbacks domain).getD 0 + 1),
    circuit_breaker_state := aset svc.circuit_breaker_state domain now }

/-- `CallbackService._record_callback_success` (services.py lines 183-188):
delete the domain's entries from both maps. -/
def CallbackService.record_callback_success (svc : CallbackService) (domain : String) :
    CallbackService :=
  { svc with
    failed_callbacks := aerase svc.failed_callbacks domain,
    circuit_breaker_state := aerase svc.circuit_breaker_state domain }

/-- What one `session.post` to the callback URL can produce, as seen by the
`try`/`except` in `send_callback`: an HTTP response with a status code, or
one of the caught exception classes. -/
inductive AttemptOutcome where
  | httpStatus : Nat → AttemptOutcome
  | timeoutError : AttemptOutcome
  | clientError : AttemptOutcome
  | otherError : AttemptOutcome
deriving DecidableEq, Repr

/-- The success test of `send_callback` (services.py line 236): exactly
`response.status == 200`; every exception path falls through to the retry
logic. -/
def attemptSucceeds : AttemptOutcome → Bool
  | .httpStatus code => code == 200
  | .timeoutError => false
  | .clientError => false
  | .otherError => false

/-- Observable result of one `send_callback` call: the returned boolean,
the service state afterwards, how many POST attempts were made, and the
backoff delays slept between consecutive attempts (in order). -/
structure SendTrace where
  delivered : Bool
  svc : CallbackService
  attempts : Nat
  delays : List ℚ
deriving DecidableEq, Repr

/-- The `for attempt in range(self.max_retries)` loop of `send_callback`
(services.py lines 201-259).  `attempt` is the current 0-based index and
`remaining + 1` attempts are still allowed.  On a 200 response: record
success and return `True`.  Otherwise, when attempts remain, sleep
`retry_delay * 2 ** attempt + jitter` and continue; when the loop ends,
record one failure (stamped `tFail`) and return `False`.  The network and
`random.uniform(0.1, 0.3)` are oracles indexed by the attempt number. -/
def sendAttempts (domain : String) (outcomes : Nat → AttemptOutcome) (jitter : Nat → ℚ)
    (tFail : ℚ) : CallbackService → Nat → Nat → SendTrace
  | svc, _, 0 =>
    { delivered := false, svc := svc.record_callback_failure domain tFail,
      attempts := 0, delays := [] }
  | svc, attempt, remaining + 1 =>
    if attemptSucceeds (outcomes attempt) then
      { delivered := true, svc := svc.record_callback_success domain,
        attempts := 1, delays := [] }
    else if remaining = 0 then
      { delivered := false, svc := svc.record_callback_failure domain tFail,
        attempts := 1, delays := [] }
    else
      let d := svc.retry_delay * 2 ^ attempt + jitter attempt
      let rest := sendAttempts domain outcomes jitter tFail svc (attempt + 1) remaining
      { delivered := rest.delivered, svc := rest.svc,
        attempts := rest.attempts + 1, delays := d :: rest.delays }

/-- `CallbackService.send_callback` (services.py lines 190-259): derive the
circuit key with `_get_domain`, short-circuit returning `False` with no
attempt when the circuit is open, otherwise run the retry loop.  `now` is
the clock at the circuit check and `tFail` the clock at a final failure
recording. -/
def CallbackService.send_callback (svc : CallbackService) (callback_url : String)
    (now tFail : ℚ) (outcomes : Nat → AttemptOutcome) (jitter : Nat → ℚ) : SendTrace :=
  let domain := get_domain callback_url
  let (isOpen, svc1) := svc.is_circuit_open domain now
  if isOpen then
    { delivered := false, svc := svc1, attempts := 0, delays := [] }
  else
    sendAttempts domain outcomes jitter tFail svc1 0 svc.max_retries

/-! ### Circuit-breaker statistics (`get_circuit_breaker_stats`, services.py 319-343) -/

/-- One per-domain entry of the statistics snapshot. -/
structure DomainStats where
  state : String
  failure_count : Nat
  last_failure_time : ℚ
  circuit_open : Bool
deriving DecidableEq, Repr

/-- The `global_stats` part of the snapshot. -/
structure GlobalStats where
  total_domains_tracked : Nat
  open_circuits : Nat
  circuit_threshold : Nat
  reset_timeout : ℚ
deriving DecidableEq, Repr

/-- `set(list(failed.keys()) + list(state.keys()))`: the tracked domains,
deduplicated keeping first occurrences (one fixed iteration order for the
Python set). -/
def dedupKeys (l : List String) : List String :=
  l.foldl (fun acc k => if k ∈ acc then acc else acc ++ [k]) []

/-- Domains iterated by `get_circuit_breaker_stats` (services.py line 323). -/
def trackedDomains (svc : CallbackService) : List String :=
  dedupKeys (svc.failed_callbacks.map Prod.fst ++ svc.circuit_breaker_state.map Prod.fst)

/-- The per-domain loop of `get_circuit_breaker_stats` (services.py lines
323-333): read `failure_count` and `last_failure` (default 0) from the
current maps, then call `_is_circuit_open` — whose reset branch mutates the
service — and emit the entry.  The service state threads through the loop. -/
def statsGo (now : ℚ) : List String → CallbackService →
    List (String × DomainStats) × CallbackService
  | [], svc => ([], svc)
  | d :: ds, svc =>
    let failure_count := (alookup svc.failed_callbacks d).getD 0
    let last_failure := (alookup svc.circuit_breaker_state d).getD 0
    let (isOpen, svc') := svc.is_circuit_open d now
    let (rest, svc'') := statsGo now ds svc'
    ((d, { state := if isOpen then "open" else "closed",
           failure_count := failure_count,
           last_failure_time := last_failure,
           circuit_open := isOpen }) :: rest, svc'')

/-- `CallbackService.get_circuit_breaker_stats` (services.py lines
319-343): the per-domain entries, the global counts, and the service state
after the call (the call can mutate it through `_is_circuit_open`). -/
def CallbackService.get_circuit_breaker_stats (svc : CallbackService) (now : ℚ) :
    (List (String × DomainStats) × GlobalStats) × CallbackService :=
  let (stats, svc') := statsGo now (trackedDomains svc) svc
  ((stats,
    { total_domains_tracked := stats.length,
      open_circuits := (stats.filter (fun p => p.2.state == "open")).length,
      circuit_threshold := svc.circuit_breaker_threshold,
      reset_timeout := svc.circuit_breaker_reset_timeout }), svc')

/-! ### The request ledger (`RequestService.update_request_status`, services.py 40-58) -/

/-- `RequestMode` (models.py lines 8-10). -/
inductive RequestMode where
  | SYNC
  | ASYNC
deriving DecidableEq, Repr

/-- `RequestStatus` (models.py lines 13-19). -/
inductive RequestStatus where
  | PENDING
  | PROCESSING
  | COMPLETED
  | FAILED
  | CALLBACK_SENT
  | CALLBACK_FAILED
deriving DecidableEq, Repr

/-- A row of the `requests` table (database.py lines 33-46).  `result` and
`input_data` hold JSON text; timestamps are rationals. -/
structure RequestRecord where
  request_id : String
  mode : RequestMode
  status : RequestStatus
  input_data : String
  result : Option String
  processing_time_ms : Option ℚ
  callback_url : Option String
  callback_attempts : Nat
  created_at : ℚ
  completed_at : Option ℚ
  error_message : Option String
deriving DecidableEq, Repr

/-- A minimal `json.dumps` for string-valued dicts, enough to model the
serialisation of the `result` argument. -/
def json_dumps (d : List (String × String)) : String :=
  "\x7b" ++ String.intercalate ", " (d.map (fun p => "\"" ++ p.1 ++ "\": \"" ++ p.2 ++ "\"")) ++ "\x7d"

/-- Python truthiness of the optional `result` dict argument: `None` and
the empty dict are falsy. -/
def pyTruthyDict (d : Option (List (String × String))) : Bool :=
  match d with
  | none => false
  | some l => !l.isEmpty

/-- Python truthiness of the optional `processing_time_ms` float: `None`
and `0.0` are falsy. -/
def pyTruthyNum (q : Option ℚ) : Bool :=
  match q with
  | none => false
  | some v => !(v == 0)

/-- Python truthiness of the optional `error_message` string: `None` and
the empty string are falsy. -/
def pyTruthyStr (s : Option String) : Bool :=
  match s with
  | none => false
  | some v => !(v == "")

/-- The field updates `update_request_status` applies to a found record
(services.py lines 47-56): set the status; set `result`,
`processing_time_ms` and `error_message` only when the arguments are
truthy; stamp `completed_at = datetime.utcnow()` (passed as `now`) exactly
when the new status is COMPLETED, FAILED or CALLBACK_SENT — with no check
of the previous value, and with CALLBACK_FAILED absent from the list. -/
def applyStatusUpdate (r : RequestRecord) (status : RequestStatus)
    (result : Option (List (String × String))) (processing_time_ms : Option ℚ)
    (error_message : Option String) (now : ℚ) : RequestRecord :=
  { r with
    status := status,
    result := if pyTruthyDict result then (result.map json_dumps) else r.result,
    processing_time_ms := if pyTruthyNum processing_time_ms then processing_time_ms
      else r.processing_time_ms,
    completed_at :=
      if status = .COMPLETED ∨ status = .FAILED ∨ status = .CALLBACK_SENT then some now
      else r.completed_at,
    error_message := if pyTruthyStr error_message then error_message else r.error_message }

/-- Replace the first list element satisfying `p` by its image under `f`. -/
def updateFirst {α : Type} (p : α → Bool) (f : α → α) : List α → List α
  | [] => []
  | x :: xs => if p x then f x :: xs else x :: updateFirst p f xs

/-- The Python function body has no `return` statement: it returns `None`
on every path. -/
inductive PyReturn where
  | nonePy : PyReturn
deriving DecidableEq, Repr

/-- `RequestService.update_request_status` (services.py lines 40-58): find
the first record with the given id; if present, apply the field updates
and commit; if absent, do nothing.  Both paths return Python `None`. -/
def update_request_status (db : List RequestRecord) (request_id : String)
    (status : RequestStatus) (result : Option (List (String × String)))
    (processing_time_ms : Option ℚ) (error_message : Option String) (now : ℚ) :
    List RequestRecord × PyReturn :=
  if (db.find? (fun r => r.request_id == request_id)).isSome then
    (updateFirst (fun r => r.request_id == request_id)
      (fun r => applyStatusUpdate r status result processing_time_ms error_message now) db,
     .nonePy)
  else (db, .nonePy)

/-- Modelled from the spec: the `transition(id, ...) -> Ok|NotFound`
contract of §4.3 (the code's `update_request_status` has no return value,
so the spec-side outcome is modelled separately for comparison). -/
inductive SpecTransitionOutcome where
  | Ok
  | NotFound
deriving DecidableEq, Repr

/-- Modelled from the spec: the outcome the §4.3 contract says `transition`
reports — `Ok` when the id is present, `NotFound` otherwise. -/
def transition_spec_outcome (db : List RequestRecord) (request_id : String) :
    SpecTransitionOutcome :=
  if (db.find? (fun r => r.request_id == request_id)).isSome then .Ok else .NotFound

/-! ## Helper lemmas -/

theorem alookup_aset_self {α : Type} (l : List (String × α)) (key : String) (v : α) :
    alookup (aset l key v) key = some v := by
  induction l with
  | nil => simp [aset, alookup]
  | cons p rest ih =>
    obtain ⟨k, w⟩ := p
    by_cases hk : k = key
    · simp [aset, hk, alookup]
    · simp [aset, hk, alookup, ih]

theorem alookup_aerase_self {α : Type} (l : List (String × α)) (key : String) :
    alookup (aerase l key) key = none := by
  induction l with
  | nil => rfl
  | cons p rest ih =>
    obtain ⟨k, w⟩ := p
    by_cases hk : k = key
    · simpa [aerase, hk] using ih
    · simpa [aerase, hk, alookup] using ih

theorem record_failure_count (svc : CallbackService) (domain : String) (now : ℚ) :
    alookup (svc.record_callback_failure domain now).failed_callbacks domain
      = some ((alookup svc.failed_callbacks domain).getD 0 + 1) := by
  simpa [CallbackService.record_callback_failure] using
    alookup_aset_self svc.failed_callbacks domain _

theorem record_failure_stamp (svc : CallbackService) (domain : String) (now : ℚ) :
    alookup (svc.record_callback_failure domain now).circuit_breaker_state domain
      = some now := by
  simpa [CallbackService.record_callback_failure] using
    alookup_aset_self svc.circuit_breaker_state domain now

theorem record_success_clears (svc : CallbackService) (domain : String) :
    alookup (svc.record_callback_success domain).failed_callbacks domain = none
      ∧ alookup (svc.record_callback_success domain).circuit_breaker_state domain = none := by
  constructor
  · simpa [CallbackService.record_callback_success] using
      alookup_aerase_self svc.failed_callbacks domain
  · simpa [CallbackService.record_callback_success] using
      alookup_aerase_self svc.circuit_breaker_state domain

/-- `_is_circuit_open` never touches the configuration fields. -/
theorem is_circuit_open_config (svc : CallbackService) (domain : String) (now : ℚ) :
    (svc.is_circuit_open domain now).2.max_retries = svc.max_retries
      ∧ (svc.is_circuit_open domain now).2.retry_delay = svc.retry_delay
      ∧ (svc.is_circuit_open domain now).2.circuit_breaker_threshold
          = svc.circuit_breaker_threshold
      ∧ (svc.is_circuit_open domain now).2.circuit_breaker_reset_timeout
          = svc.circuit_breaker_reset_timeout := by
  unfold CallbackService.is_circuit_open
  cases alookup svc.circuit_breaker_state domain with
  | none => exact ⟨rfl, rfl, rfl, rfl⟩
  | some lf => dsimp only; split_ifs <;> exact ⟨rfl, rfl, rfl, rfl⟩

/-- When the circuit test stops before the reset branch it leaves the
service untouched (no state entry, or count below threshold). -/
theorem is_circuit_open_no_mutation (svc : CallbackService) (domain : String) (now : ℚ)
    (h : alookup svc.circuit_breaker_state domain = none
        ∨ (alookup svc.failed_callbacks domain).getD 0 < svc.circuit_breaker_threshold
        ∨ now - ((alookup svc.circuit_breaker_state domain).getD 0)
            ≤ svc.circuit_breaker_reset_timeout) :
    (svc.is_circuit_open domain now).2 = svc := by
  unfold CallbackService.is_circuit_open
  cases hs : alookup svc.circuit_breaker_state domain with
  | none => rfl
  | some lf =>
    dsimp only
    rcases h with h | h | h
    · exact absurd hs (by simp [h])
    · simp [h]
    · rw [hs] at h
      simp only [Option.getD_some] at h
      split_ifs with h1 h2
      · rfl
      · exact absurd h2 (not_lt.mpr h)
      · rfl

/-- The circuit reports open exactly on the claim's condition: a recorded
last failure, count at or above the threshold, and the failure within the
reset timeout. -/
theorem is_circuit_open_true (svc : CallbackService) (domain : String) (now lf : ℚ)
    (hs : alookup svc.circuit_breaker_state domain = some lf)
    (hc : svc.circuit_breaker_threshold ≤ (alookup svc.failed_callbacks domain).getD 0)
    (ht : now - lf ≤ svc.circuit_breaker_reset_timeout) :
    svc.is_circuit_open domain now = (true, svc) := by
  unfold CallbackService.is_circuit_open
  rw [hs]
  simp only
  rw [if_neg (not_lt.mpr hc), if_neg (not_lt.mpr ht)]

theorem is_circuit_open_false_of_no_state (svc : CallbackService) (domain : String)
    (now : ℚ) (hs : alookup svc.circuit_breaker_state domain = none) :
    (svc.is_circuit_open domain now).1 = false := by
  unfold CallbackService.is_circuit_open
  rw [hs]

theorem is_circuit_open_false_of_low_count (svc : CallbackService) (domain : String)
    (now : ℚ)
    (hc : (alookup svc.failed_callbacks domain).getD 0 < svc.circuit_breaker_threshold) :
    (svc.is_circuit_open domain now).1 = false := by
  unfold CallbackService.is_circuit_open
  cases hs : alookup svc.circuit_breaker_state domain with
  | none => rfl
  | some lf => simp [hc]

/-- The retry loop when every attempt in range fails: all `remaining`
attempts run, one failure is recorded at the end, and the recorded backoff
delays are exactly `retry_delay * 2 ^ k + jitter k` for the non-final
attempt indices. -/
theorem sendAttempts_all_fail (domain : String) (outcomes : Nat → AttemptOutcome)
    (jitter : Nat → ℚ) (tFail : ℚ) (svc : CallbackService) :
    ∀ (remaining attempt : Nat),
    (∀ k, attempt ≤ k → k < attempt + remaining → attemptSucceeds (outcomes k) = false) →
    sendAttempts domain outcomes jitter tFail svc attempt remaining =
      { delivered := false, svc := svc.record_callback_failure domain tFail,
        attempts := remaining,
        delays := (List.range (remaining - 1)).map
          (fun i => svc.retry_delay * 2 ^ (attempt + i) + jitter (attempt + i)) } := by
  intro remaining
  induction remaining with
  | zero => intro attempt _; rfl
  | succ r ih =>
    intro attempt h
    have h0 : attemptSucceeds (outcomes attempt) = false := h attempt le_rfl (by omega)
    unfold sendAttempts
    rw [h0]
    simp only [Bool.false_eq_true, if_false]
    by_cases hr : r = 0
    · subst hr; simp
    · rw [if_neg hr]
      rw [ih (attempt + 1) (fun k hk1 hk2 => h k (by omega) (by omega))]
      obtain ⟨r', rfl⟩ : ∃ r', r = r' + 1 := ⟨r - 1, by omega⟩
      simp only [Nat.add_sub_cancel]
      refine congrArg _ ?_
      rw [List.range_succ_eq_map, List.map_cons, List.map_map]
      simp only [Nat.add_zero]
      refine congrArg _ (List.map_congr_left fun i _ => ?_)
      simp only [Function.comp_apply]
      have : attempt + 1 + i = attempt + (i + 1) := by omega
      rw [this]

/-- The retry loop when the first success happens at relative attempt `k`:
`k + 1` attempts run, success is recorded, and the loop returns `True`. -/
theorem sendAttempts_first_success (domain : String) (outcomes : Nat → AttemptOutcome)
    (jitter : Nat → ℚ) (tFail : ℚ) (svc : CallbackService) :
    ∀ (remaining attempt k : Nat), k < remaining →
    (∀ i, i < k → attemptSucceeds (outcomes (attempt + i)) = false) →
    attemptSucceeds (outcomes (attempt + k)) = true →
    sendAttempts domain outcomes jitter tFail svc attempt remaining =
      { delivered := true, svc := svc.record_callback_success domain,
        attempts := k + 1,
        delays := (List.range k).map
          (fun i => svc.retry_delay * 2 ^ (attempt + i) + jitter (attempt + i)) } := by
  intro remaining
  induction remaining with
  | zero => intro attempt k hk; omega
  | succ r ih =>
    intro attempt k hk hfail hsucc
    match k with
    | 0 =>
      rw [Nat.add_zero] at hsucc
      unfold sendAttempts
      rw [hsucc]
      simp
    | k' + 1 =>
      have h0 : attemptSucceeds (outcomes attempt) = false := by
        simpa using hfail 0 (by omega)
      unfold sendAttempts
      rw [h0]
      simp only [Bool.false_eq_true, if_false]
      have hr : r ≠ 0 := by omega
      rw [if_neg hr]
      rw [ih (attempt + 1) k' (by omega)
        (fun i hi => by
          have h1 := hfail (i + 1) (by omega)
          have h2 : attempt + (i + 1) = attempt + 1 + i := by omega
          rwa [h2] at h1)
        (by
          have h2 : attempt + (k' + 1) = attempt + 1 + k' := by omega
          rwa [h2] at hsucc)]
      refine congrArg _ ?_
      rw [List.range_succ_eq_map, List.map_cons, List.map_map]
      simp only [Nat.add_zero]
      refine congrArg _ (List.map_congr_left fun i _ => ?_)
      simp only [Function.comp_apply]
      have : attempt + 1 + i = attempt + (i + 1) := by omega
      rw [this]

/-- With the circuit closed, `send_callback` is the retry loop started at
attempt 0 on the post-check service state. -/
theorem send_callback_closed (svc : CallbackService) (url : String) (now tFail : ℚ)
    (outcomes : Nat → AttemptOutcome) (jitter : Nat → ℚ)
    (hclosed : (svc.is_circuit_open (get_domain url) now).1 = false) :
    svc.send_callback url now tFail outcomes jitter =
      sendAttempts (get_domain url) outcomes jitter tFail
        (svc.is_circuit_open (get_domain url) now).2 0 svc.max_retries := by
  rcases he : svc.is_circuit_open (get_domain url) now with ⟨b, s⟩
  rw [he] at hclosed
  simp only at hclosed
  subst hclosed
  unfold CallbackService.send_callback
  simp [he]

/-- With the circuit open, `send_callback` short-circuits: `False`, no
attempt, no delay. -/
theorem send_callback_open (svc : CallbackService) (url : String) (now tFail : ℚ)
    (outcomes : Nat → AttemptOutcome) (jitter : Nat → ℚ)
    (hopen : (svc.is_circuit_open (get_domain url) now).1 = true) :
    svc.send_callback url now tFail outcomes jitter =
      { delivered := false, svc := (svc.is_circuit_open (get_domain url) now).2,
        attempts := 0, delays := [] } := by
  rcases he : svc.is_circuit_open (get_domain url) now with ⟨b, s⟩
  rw [he] at hopen
  simp only at hopen
  subst hopen
  unfold CallbackService.send_callback
  simp [he]

/-! ## Claims -/

/-- C1: in strict (production) mode `http://127.0.0.1/x` is rejected
(blocked host), `http://169.254.169.254/latest/meta-data/` is rejected
(private/link-local literal IP), `ftp://evil.com/` and `file:///etc/passwd`
are rejected in every mode (non-http/https scheme), the metadata address is
rejected regardless of mode, and `https://example.com/callback` is
accepted.  Every `rejected` outcome is raised as HTTP 400. -/
theorem C1_strict_egress_validation :
    validate_callback_url "http://127.0.0.1/x" "production"
        = .rejected .BLOCKED_HOST
    ∧ validate_callback_url "http://169.254.169.254/latest/meta-data/" "production"
        = .rejected .PRIVATE_IP_BLOCKED
    ∧ (∀ environment, validate_callback_url "ftp://evil.com/" environment
        = .rejected .INVALID_CALLBACK_URL)
    ∧ (∀ environment, validate_callback_url "file:///etc/passwd" environment
        = .rejected .INVALID_CALLBACK_URL)
    ∧ (∀ is_production,
        validate_callback_url_b "http://169.254.169.254/latest/meta-data/" is_production
          ≠ .accepted)
    ∧ validate_callback_url "https://example.com/callback" "production" = .accepted := by
  refine ⟨by decide, by decide, fun _ => rfl, fun _ => rfl, ?_, by decide⟩
  intro b
  cases b <;> decide

/-- C2: with a recorded last failure within the reset timeout and a failure
count at or above the threshold (default 5, timeout 60s), `send_callback`
returns `False` immediately with zero POST attempts; a hostname with no
recorded circuit state, or with a count below the threshold, is not open. -/
theorem C2_circuit_open_short_circuit :
    (∀ (svc : CallbackService) (url : String) (now tFail lf : ℚ)
        (outcomes : Nat → AttemptOutcome) (jitter : Nat → ℚ),
      alookup svc.circuit_breaker_state (get_domain url) = some lf →
      svc.circuit_breaker_threshold ≤ (alookup svc.failed_callbacks (get_domain url)).getD 0 →
      now - lf ≤ svc.circuit_breaker_reset_timeout →
      (svc.send_callback url now tFail outcomes jitter).delivered = false
        ∧ (svc.send_callback url now tFail outcomes jitter).attempts = 0
        ∧ (svc.send_callback url now tFail outcomes jitter).delays = [])
    ∧ (∀ (svc : CallbackService) (domain : String) (now : ℚ),
        alookup svc.circuit_breaker_state domain = none →
        (svc.is_circuit_open domain now).1 = false)
    ∧ (∀ (svc : CallbackService) (domain : String) (now : ℚ),
        (alookup svc.failed_callbacks domain).getD 0 < svc.circuit_breaker_threshold →
        (svc.is_circuit_open domain now).1 = false)
    ∧ CallbackService.mkInit.circuit_breaker_threshold = 5
    ∧ CallbackService.mkInit.circuit_breaker_reset_timeout = 60 := by
  refine ⟨?_, is_circuit_open_false_of_no_state, is_circuit_open_false_of_low_count,
    rfl, rfl⟩
  intro svc url now tFail lf outcomes jitter hs hc ht
  have hopen : (svc.is_circuit_open (get_domain url) now).1 = true := by
    rw [is_circuit_open_true svc (get_domain url) now lf hs hc ht]
  rw [send_callback_open svc url now tFail outcomes jitter hopen]
  exact ⟨rfl, rfl, rfl⟩

/-- C2 witness: a concrete service with 5 recorded failures for host `h`
30 seconds ago short-circuits a delivery to `http://h/x`. -/
theorem C2_circuit_open_short_circuit_witness :
    ((⟨3, 1, 5, 60, [("h", 5)], [("h", 0)]⟩ :
        CallbackService).send_callback "http://h/x" 30 30
      (fun _ => .httpStatus 200) (fun _ => 1/5)).delivered = false
    ∧ ((⟨3, 1, 5, 60, [("h", 5)], [("h", 0)]⟩ :
        CallbackService).send_callback "http://h/x" 30 30
      (fun _ => .httpStatus 200) (fun _ => 1/5)).attempts = 0
    ∧ ((⟨3, 1, 5, 60, [("h", 5)], [("h", 0)]⟩ :
        CallbackService).send_callback "http://h/x" 30 30
      (fun _ => .httpStatus 200) (fun _ => 1/5)).delays = [] :=
  C2_circuit_open_short_circuit.1 ⟨3, 1, 5, 60, [("h", 5)], [("h", 0)]⟩
    "http://h/x" 30 30 0 (fun _ => .httpStatus 200) (fun _ => 1/5)
    (by rfl) (by decide) (by norm_num)

/-- The reset branch of `_is_circuit_open`: with a recorded failure, a
count at the threshold and the timeout elapsed, the count is zeroed and
the state entry deleted. -/
theorem is_circuit_open_reset (svc : CallbackService) (domain : String) (now lf : ℚ)
    (hs : alookup svc.circuit_breaker_state domain = some lf)
    (hc : svc.circuit_breaker_threshold ≤ (alookup svc.failed_callbacks domain).getD 0)
    (ht : svc.circuit_breaker_reset_timeout < now - lf) :
    svc.is_circuit_open domain now =
      (false, { svc with
        failed_callbacks := aset svc.failed_callbacks domain 0,
        circuit_breaker_state := aerase svc.circuit_breaker_state domain }) := by
  unfold CallbackService.is_circuit_open
  rw [hs]
  simp only
  rw [if_neg (not_lt.mpr hc), if_pos ht]

/-- C3 counterexample: with 3 recorded failures (below the threshold 5)
and the reset timeout long elapsed, the circuit check clears nothing, and
the next recorded failure yields count 4, not 1 — the claim's "failure
count is cleared on the next circuit check once resetTimeout has elapsed"
fails below the threshold. -/
theorem C3_reset_counterexample :
    (60 : ℚ) < 100 - 0
    ∧ ((⟨3, 1, 5, 60, [("h", 3)], [("h", 0)]⟩ : CallbackService).is_circuit_open "h" 100).2
        = ⟨3, 1, 5, 60, [("h", 3)], [("h", 0)]⟩
    ∧ alookup (((⟨3, 1, 5, 60, [("h", 3)], [("h", 0)]⟩ :
          CallbackService).is_circuit_open "h" 100).2.record_callback_failure
          "h" 100).failed_callbacks "h" = some 4
    ∧ (4 : Nat) ≠ 1 := by
  have hmut : ((⟨3, 1, 5, 60, [("h", 3)], [("h", 0)]⟩ :
      CallbackService).is_circuit_open "h" 100).2
      = ⟨3, 1, 5, 60, [("h", 3)], [("h", 0)]⟩ :=
    is_circuit_open_no_mutation _ "h" 100 (Or.inr (Or.inl (by decide)))
  refine ⟨by norm_num, hmut, ?_, by decide⟩
  rw [hmut]
  rfl

/-- C3 amended: a successful delivery clears the hostname's circuit record
entirely, and the circuit check clears the failure count (and deletes the
state entry) only when the count has reached the threshold and the reset
timeout has elapsed; after a success or such a reset the next recorded
failure sets the count to exactly 1, while below the threshold the check
leaves the service untouched (so a later failure continues the old count). -/
theorem C3_success_and_reset_clear :
    (∀ (svc : CallbackService) (domain : String) (t : ℚ),
      alookup (svc.record_callback_success domain).failed_callbacks domain = none
      ∧ alookup (svc.record_callback_success domain).circuit_breaker_state domain = none
      ∧ alookup ((svc.record_callback_success domain).record_callback_failure
          domain t).failed_callbacks domain = some 1)
    ∧ (∀ (svc : CallbackService) (domain : String) (now lf t : ℚ),
        alookup svc.circuit_breaker_state domain = some lf →
        svc.circuit_breaker_threshold ≤ (alookup svc.failed_callbacks domain).getD 0 →
        svc.circuit_breaker_reset_timeout < now - lf →
        (svc.is_circuit_open domain now).1 = false
        ∧ alookup (svc.is_circuit_open domain now).2.failed_callbacks domain = some 0
        ∧ alookup (svc.is_circuit_open domain now).2.circuit_breaker_state domain = none
        ∧ alookup ((svc.is_circuit_open domain now).2.record_callback_failure
            domain t).failed_callbacks domain = some 1)
    ∧ (∀ (svc : CallbackService) (domain : String) (now : ℚ),
        (alookup svc.failed_callbacks domain).getD 0 < svc.circuit_breaker_threshold →
        (svc.is_circuit_open domain now).2 = svc) := by
  refine ⟨?_, ?_, ?_⟩
  · intro svc domain t
    obtain ⟨hf, hsState⟩ := record_success_clears svc domain
    refine ⟨hf, hsState, ?_⟩
    have h1 := record_failure_count (svc.record_callback_success domain) domain t
    rw [hf] at h1
    simpa using h1
  · intro svc domain now lf t hs hc ht
    have hr := is_circuit_open_reset svc domain now lf hs hc ht
    rw [hr]
    refine ⟨rfl, ?_, ?_, ?_⟩
    · exact alookup_aset_self svc.failed_callbacks domain 0
    · exact alookup_aerase_self svc.circuit_breaker_state domain
    · have h1 := record_failure_count
        { svc with failed_callbacks := aset svc.failed_callbacks domain 0,
                   circuit_breaker_state := aerase svc.circuit_breaker_state domain }
        domain t
      simp only at h1
      rw [alookup_aset_self svc.failed_callbacks domain 0] at h1
      simpa using h1
  · intro svc domain now hc
    exact is_circuit_open_no_mutation svc domain now (Or.inr (Or.inl hc))

/-- C3 witness: a concrete service at the threshold with its last failure
100 seconds ago is reset by the circuit check, and the next failure starts
the count at 1. -/
theorem C3_success_and_reset_clear_witness :
    ((⟨3, 1, 5, 60, [("h", 5)], [("h", 0)]⟩ :
        CallbackService).is_circuit_open "h" 100).1 = false
    ∧ alookup ((⟨3, 1, 5, 60, [("h", 5)], [("h", 0)]⟩ :
        CallbackService).is_circuit_open "h" 100).2.failed_callbacks "h" = some 0
    ∧ alookup ((⟨3, 1, 5, 60, [("h", 5)], [("h", 0)]⟩ :
        CallbackService).is_circuit_open "h" 100).2.circuit_breaker_state "h" = none
    ∧ alookup (((⟨3, 1, 5, 60, [("h", 5)], [("h", 0)]⟩ :
        CallbackService).is_circuit_open "h" 100).2.record_callback_failure
        "h" 100).failed_callbacks "h" = some 1 :=
  C3_success_and_reset_clear.2.1 ⟨3, 1, 5, 60, [("h", 5)], [("h", 0)]⟩ "h" 100 0 100
    (by rfl) (by decide) (by norm_num)

/-- C4: with the circuit closed and every attempt failing, exactly
`max_retries` (default 3) POST attempts occur, exactly one circuit failure
is recorded for the hostname after the last attempt, and the wait between
attempt `k` and `k + 1` is `retry_delay * 2 ^ k + jitter k`, hence at
least `retry_delay * 2 ^ k` (the jitter is drawn from [0.1, 0.3]). -/
theorem C4_retry_backoff :
    ∀ (svc : CallbackService) (url : String) (now tFail : ℚ)
      (outcomes : Nat → AttemptOutcome) (jitter : Nat → ℚ),
    (svc.is_circuit_open (get_domain url) now).1 = false →
    (∀ k, k < svc.max_retries → attemptSucceeds (outcomes k) = false) →
    (∀ k, 1/10 ≤ jitter k) →
    (svc.send_callback url now tFail outcomes jitter).delivered = false
    ∧ (svc.send_callback url now tFail outcomes jitter).attempts = svc.max_retries
    ∧ (svc.send_callback url now tFail outcomes jitter).svc
        = (svc.is_circuit_open (get_domain url) now).2.record_callback_failure
            (get_domain url) tFail
    ∧ (svc.send_callback url now tFail outcomes jitter).delays
        = (List.range (svc.max_retries - 1)).map
            (fun i => svc.retry_delay * 2 ^ i + jitter i)
    ∧ (∀ (i : Nat) (h : i < (svc.send_callback url now tFail outcomes jitter).delays.length),
        svc.retry_delay * 2 ^ i
          ≤ (svc.send_callback url now tFail outcomes jitter).delays.get ⟨i, h⟩)
    ∧ CallbackService.mkInit.max_retries = 3
    ∧ CallbackService.mkInit.retry_delay = 1 := by
  intro svc url now tFail outcomes jitter hclosed hfail hjit
  have hrd : (svc.is_circuit_open (get_domain url) now).2.retry_delay = svc.retry_delay :=
    (is_circuit_open_config svc (get_domain url) now).2.1
  have hall := sendAttempts_all_fail (get_domain url) outcomes jitter tFail
    (svc.is_circuit_open (get_domain url) now).2 svc.max_retries 0
    (fun k _ hk2 => hfail k (by omega))
  have hdelays :
      (svc.send_callback url now tFail outcomes jitter).delays
        = (List.range (svc.max_retries - 1)).map
            (fun i => svc.retry_delay * 2 ^ i + jitter i) := by
    rw [send_callback_closed svc url now tFail outcomes jitter hclosed, hall]
    exact List.map_congr_left fun i _ => by rw [hrd, Nat.zero_add]
  refine ⟨?_, ?_, ?_, hdelays, ?_, rfl, rfl⟩
  · rw [send_callback_closed svc url now tFail outcomes jitter hclosed, hall]
  · rw [send_callback_closed svc url now tFail outcomes jitter hclosed, hall]
  · rw [send_callback_closed svc url now tFail outcomes jitter hclosed, hall]
  · intro i h
    have hv : (svc.send_callback url now tFail outcomes jitter).delays.get ⟨i, h⟩
        = svc.retry_delay * 2 ^ i + jitter i := by
      rw [List.get_eq_getElem, List.getElem_of_eq hdelays h]
      simp
    rw [hv]
    have h0 : (0 : ℚ) ≤ jitter i := le_trans (by norm_num) (hjit i)
    linarith

/-- C4 witness: a fresh service delivering to `http://example.com/cb`
against a destination answering 503 on every attempt makes exactly 3
attempts and returns `False`. -/
theorem C4_retry_backoff_witness :
    (CallbackService.mkInit.send_callback "http://example.com/cb" 0 7
        (fun _ => .httpStatus 503) (fun _ => 1/5)).delivered = false
    ∧ (CallbackService.mkInit.send_callback "http://example.com/cb" 0 7
        (fun _ => .httpStatus 503) (fun _ => 1/5)).attempts
        = CallbackService.mkInit.max_retries := by
  have h := C4_retry_backoff CallbackService.mkInit "http://example.com/cb" 0 7
    (fun _ => .httpStatus 503) (fun _ => 1/5)
    (by rfl) (fun k _ => rfl) (fun k => by norm_num)
  exact ⟨h.1, h.2.1⟩

/-- C5 counterexample: 204 is a 2xx status, yet the delivery attempt is
treated as a failure — the loop returns `False` after all attempts and
records a circuit failure, because the code tests `status == 200`, not
"2xx". -/
theorem C5_2xx_counterexample :
    ((200 : Nat) ≤ 204 ∧ (204 : Nat) < 300)
    ∧ (CallbackService.mkInit.send_callback "http://example.com/cb" 0 9
        (fun _ => .httpStatus 204) (fun _ => 1/5)).delivered = false
    ∧ alookup (CallbackService.mkInit.send_callback "http://example.com/cb" 0 9
        (fun _ => .httpStatus 204) (fun _ => 1/5)).svc.failed_callbacks "example.com"
        = some 1 :=
  ⟨⟨by decide, by decide⟩, rfl, rfl⟩

/-- C5 amended: exactly a 200 response is the success signal (any other
status — including other 2xx codes — and every timeout or transport error
counts as a failed attempt): with the circuit closed, the first attempt
answering 200 ends the call successfully and records a circuit success,
and when no attempt answers 200 the call returns `False` and records one
circuit failure. -/
theorem C5_only_200_succeeds :
    (∀ c, attemptSucceeds (.httpStatus c) = true ↔ c = 200)
    ∧ attemptSucceeds .timeoutError = false
    ∧ attemptSucceeds .clientError = false
    ∧ attemptSucceeds .otherError = false
    ∧ (∀ (svc : CallbackService) (url : String) (now tFail : ℚ)
        (outcomes : Nat → AttemptOutcome) (jitter : Nat → ℚ) (k : Nat),
      (svc.is_circuit_open (get_domain url) now).1 = false →
      k < svc.max_retries →
      (∀ i, i < k → attemptSucceeds (outcomes i) = false) →
      attemptSucceeds (outcomes k) = true →
      (svc.send_callback url now tFail outcomes jitter).delivered = true
      ∧ (svc.send_callback url now tFail outcomes jitter).attempts = k + 1
      ∧ (svc.send_callback url now tFail outcomes jitter).svc
          = (svc.is_circuit_open (get_domain url) now).2.record_callback_success
              (get_domain url))
    ∧ (∀ (svc : CallbackService) (url : String) (now tFail : ℚ)
        (outcomes : Nat → AttemptOutcome) (jitter : Nat → ℚ),
      (svc.is_circuit_open (get_domain url) now).1 = false →
      (∀ k, k < svc.max_retries → attemptSucceeds (outcomes k) = false) →
      (svc.send_callback url now tFail outcomes jitter).delivered = false
      ∧ (svc.send_callback url now tFail outcomes jitter).svc
          = (svc.is_circuit_open (get_domain url) now).2.record_callback_failure
              (get_domain url) tFail) := by
  refine ⟨fun c => by simp [attemptSucceeds], rfl, rfl, rfl, ?_, ?_⟩
  · intro svc url now tFail outcomes jitter k hclosed hk hbefore hsucc
    have hrun := sendAttempts_first_success (get_domain url) outcomes jitter tFail
      (svc.is_circuit_open (get_domain url) now).2 svc.max_retries 0 k hk
      (fun i hi => by simpa using hbefore i hi) (by simpa using hsucc)
    rw [send_callback_closed svc url now tFail outcomes jitter hclosed, hrun]
    exact ⟨rfl, rfl, rfl⟩
  · intro svc url now tFail outcomes jitter hclosed hfail
    have hrun := sendAttempts_all_fail (get_domain url) outcomes jitter tFail
      (svc.is_circuit_open (get_domain url) now).2 svc.max_retries 0
      (fun k _ hk2 => hfail k (by omega))
    rw [send_callback_closed svc url now tFail outcomes jitter hclosed, hrun]
    exact ⟨rfl, rfl⟩

/-- C5 witness: a destination answering 500 then 200 yields a successful
delivery on the second attempt, clearing the circuit record. -/
theorem C5_only_200_succeeds_witness :
    (CallbackService.mkInit.send_callback "http://example.com/cb" 0 9
        (fun n => if n = 0 then .httpStatus 500 else .httpStatus 200)
        (fun _ => 1/5)).delivered = true
    ∧ (CallbackService.mkInit.send_callback "http://example.com/cb" 0 9
        (fun n => if n = 0 then .httpStatus 500 else .httpStatus 200)
        (fun _ => 1/5)).attempts = 1 + 1 := by
  have h := C5_only_200_succeeds.2.2.2.2.1 CallbackService.mkInit
    "http://example.com/cb" 0 9
    (fun n => if n = 0 then .httpStatus 500 else .httpStatus 200) (fun _ => 1/5) 1
    (by rfl) (by decide)
    (fun i hi => by
      have : i = 0 := by omega
      subst this
      rfl)
    (by rfl)
  exact ⟨h.1, h.2.1⟩

/-- Outside production, `check_rate_limit` returns immediately without
consulting the limiter. -/
theorem check_rate_limit_skipped (env ip : String) (now : ℚ) (rl : RateLimiter)
    (h : env ≠ "production") :
    check_rate_limit env ip now rl = (.proceed, rl) := by
  unfold check_rate_limit
  rw [if_pos h]

/-- Outside production, every request of a run is admitted and the limiter
state never changes. -/
theorem gateRun_skipped (env ip : String) (t : ℚ) (h : env ≠ "production") :
    ∀ (n : Nat) (rl : RateLimiter),
    gateRun env ip t n rl = (List.replicate n .proceed, rl) := by
  intro n
  induction n with
  | zero => intro rl; rfl
  | succ m ih =>
    intro rl
    unfold gateRun
    rw [check_rate_limit_skipped env ip t rl h]
    simp only
    rw [ih rl]
    rw [List.replicate_succ]

/-- In production, `check_rate_limit` reports exactly the limiter's
decision. -/
theorem check_rate_limit_production (ip : String) (now : ℚ) (rl : RateLimiter) :
    check_rate_limit "production" ip now rl
      = (if (rl.is_allowed ip now).1 then GateResult.proceed else .rateLimited,
         (rl.is_allowed ip now).2) := by
  unfold check_rate_limit
  rw [if_neg (by simp)]
  rcases he : rl.is_allowed ip now with ⟨b, s⟩
  simp only [he]
  cases b <;> rfl

theorem pruneOld_keep (w now t : ℚ) (m : Nat) (h : ¬ t ≤ now - w) :
    pruneOld w now (List.replicate m t) = List.replicate m t := by
  cases m with
  | zero => rfl
  | succ k =>
    rw [List.replicate_succ]
    unfold pruneOld
    rw [if_neg h]

theorem pruneOld_drop_all (w now t : ℚ) (m : Nat) (h : t ≤ now - w) :
    pruneOld w now (List.replicate m t) = [] := by
  induction m with
  | zero => rfl
  | succ k ih =>
    rw [List.replicate_succ]
    unfold pruneOld
    rw [if_pos h]
    exact ih

/-- One `is_allowed` call at time `t` for a client whose deque holds `m`
copies of `t` (none prunable): reject at the limit, otherwise append. -/
theorem is_allowed_step (M : Nat) (w t : ℚ) (ip : String) (m : Nat)
    (L : List (String × List ℚ))
    (hL : (alookup L ip).getD [] = List.replicate m t) (hw : 0 < w) :
    RateLimiter.is_allowed ⟨M, w, L⟩ ip t
      = (if M ≤ m then (false, ⟨M, w, aset L ip (List.replicate m t)⟩)
         else (true, ⟨M, w, aset L ip (List.replicate (m + 1) t)⟩)) := by
  unfold RateLimiter.is_allowed
  simp only
  rw [hL, pruneOld_keep w t t m (by linarith)]
  simp only [List.length_replicate]
  by_cases h : M ≤ m
  · rw [if_pos h, if_pos h]
  · rw [if_neg h, if_neg h, ← List.replicate_succ']

/-- One `is_allowed` call at a time `t'` past the window of every recorded
timestamp: the whole deque is pruned and the request admitted. -/
theorem is_allowed_after_window (M : Nat) (w t t' : ℚ) (ip : String) (m : Nat)
    (L : List (String × List ℚ))
    (hL : (alookup L ip).getD [] = List.replicate m t) (hM : 0 < M)
    (h : t ≤ t' - w) :
    RateLimiter.is_allowed ⟨M, w, L⟩ ip t' = (true, ⟨M, w, aset L ip [t']⟩) := by
  unfold RateLimiter.is_allowed
  simp only
  rw [hL, pruneOld_drop_all w t' t m h]
  simp only [List.length_nil]
  rw [if_neg (by omega)]
  rfl

/-- A production run of `n` same-instant requests against the 50/60s
limiter, starting from a deque of `m` fresh timestamps with `m + n = 51`:
the first `n - 1` are admitted, the last rejected with 429, and the deque
ends full. -/
theorem gateRun_production_until_reject (ip : String) (t : ℚ) :
    ∀ (n m : Nat) (L : List (String × List ℚ)), m + n = 51 → 1 ≤ n →
    (alookup L ip).getD [] = List.replicate m t →
    (gateRun "production" ip t n ⟨50, 60, L⟩).1
        = List.replicate (n - 1) .proceed ++ [.rateLimited]
    ∧ (gateRun "production" ip t n ⟨50, 60, L⟩).2.max_requests = 50
    ∧ (gateRun "production" ip t n ⟨50, 60, L⟩).2.window_seconds = 60
    ∧ (alookup (gateRun "production" ip t n ⟨50, 60, L⟩).2.requests ip).getD []
        = List.replicate 50 t := by
  intro n
  induction n with
  | zero => intro m L h1 h2 _; omega
  | succ n' ih =>
    intro m L h1 _ hL
    unfold gateRun
    rw [check_rate_limit_production,
      is_allowed_step 50 60 t ip m L hL (by norm_num)]
    by_cases hm : 50 ≤ m
    · have hm' : m = 50 := by omega
      have hn' : n' = 0 := by omega
      subst hm' hn'
      rw [if_pos hm]
      refine ⟨?_, ?_, ?_, ?_⟩ <;> simp [gateRun, alookup_aset_self]
    · rw [if_neg hm]
      simp only [if_true]
      have hstep := ih (m + 1) (aset L ip (List.replicate (m + 1) t))
        (by omega) (by omega) (by rw [alookup_aset_self]; rfl)
      obtain ⟨hr, hmax, hwin, hlook⟩ := hstep
      refine ⟨?_, hmax, hwin, hlook⟩
      rw [hr]
      obtain ⟨p, rfl⟩ : ∃ p, n' = p + 1 := ⟨n' - 1, by omega⟩
      simp [List.replicate_succ]

/-- C6 counterexample: outside production the gate is skipped entirely, so
a client sending `maxRequests + 1 = 1001` requests inside one window has
every one admitted — the claim's "every deployment mode" fails. -/
theorem C6_development_counterexample :
    (mkRateLimiter "development").max_requests = 1000
    ∧ (gateRun "development" "1.2.3.4" 0 1001 (mkRateLimiter "development")).1
        = List.replicate 1001 .proceed
    ∧ GateResult.proceed ≠ GateResult.rateLimited := by
  refine ⟨rfl, ?_, by decide⟩
  rw [gateRun_skipped "development" "1.2.3.4" 0 (by decide) 1001
    (mkRateLimiter "development")]

/-- C6 amended: only in production does the gate limit: there, a client's
51st request inside the 60s window (the production limit is
`maxRequests = 50`) is rejected with 429, and once the window has passed a
further request is admitted again; outside production `check_rate_limit`
returns without consulting the limiter, admitting everything.  Both the
`/sync` and `/async` endpoints run this same gate. -/
theorem C6_rate_limit_production_only :
    ∀ (ip : String) (t t' : ℚ),
    (gateRun "production" ip t 51 (mkRateLimiter "production")).1
        = List.replicate 50 .proceed ++ [.rateLimited]
    ∧ (t + 60 < t' →
        (check_rate_limit "production" ip t'
          (gateRun "production" ip t 51 (mkRateLimiter "production")).2).1 = .proceed)
    ∧ (∀ env, env ≠ "production" → ∀ (n : Nat) (rl : RateLimiter),
        gateRun env ip t n rl = (List.replicate n .proceed, rl))
    ∧ (∀ env ip2 now rl, sync_endpoint_gate env ip2 now rl
        = check_rate_limit env ip2 now rl)
    ∧ (∀ env ip2 now rl, async_endpoint_gate env ip2 now rl
        = check_rate_limit env ip2 now rl)
    ∧ (mkRateLimiter "production").max_requests = 50 := by
  intro ip t t'
  have hmk : mkRateLimiter "production" = (⟨50, 60, []⟩ : RateLimiter) := rfl
  obtain ⟨h1, hmax, hwin, hlook⟩ :=
    gateRun_production_until_reject ip t 51 0 [] (by omega) (by omega) rfl
  refine ⟨?_, ?_, fun env h n rl => gateRun_skipped env ip t h n rl,
    fun _ _ _ _ => rfl, fun _ _ _ _ => rfl, rfl⟩
  · rw [hmk]
    exact h1
  · intro ht
    rw [hmk]
    clear h1
    revert hmax hwin hlook
    generalize (gateRun "production" ip t 51 (⟨50, 60, []⟩ : RateLimiter)).2 = X
    intro hmax hwin hlook
    obtain ⟨Xm, Xw, XL⟩ := X
    simp only at hmax hwin hlook
    subst hmax
    subst hwin
    rw [check_rate_limit_production,
      is_allowed_after_window 50 60 t t' ip 50 XL hlook (by omega) (by linarith)]
    rfl

/-- C6 witness: at `t = 0` the 51st request is rejected and a request at
`t' = 61` (past the 60s window) is admitted again. -/
theorem C6_rate_limit_production_only_witness :
    (gateRun "production" "1.2.3.4" 0 51 (mkRateLimiter "production")).1
        = List.replicate 50 .proceed ++ [.rateLimited]
    ∧ (check_rate_limit "production" "1.2.3.4" 61
        (gateRun "production" "1.2.3.4" 0 51 (mkRateLimiter "production")).2).1
        = .proceed := by
  have h := C6_rate_limit_production_only "1.2.3.4" 0 61
  exact ⟨h.1, h.2.1 (by norm_num)⟩

/-- C7 counterexample: a record that already carries `completed_at = 5`
gets it overwritten to 10 on another COMPLETED transition (the code has no
"only if unset" guard), and a CALLBACK_FAILED transition never sets
`completed_at` even when it is unset (the status is missing from the list
on services.py line 53) — so `completed_at` is not written on exactly one
transition. -/
theorem C7_completed_at_counterexample :
    ((update_request_status
        [{ request_id := "id1", mode := .ASYNC, status := .COMPLETED, input_data := "x",
           result := none, processing_time_ms := none, callback_url := none,
           callback_attempts := 0, created_at := 0, completed_at := some 5,
           error_message := none }] "id1" .COMPLETED none none none 10).1.map
      (fun r => r.completed_at)) = [some 10]
    ∧ some (5 : ℚ) ≠ some (10 : ℚ)
    ∧ ((update_request_status
        [{ request_id := "id2", mode := .ASYNC, status := .COMPLETED, input_data := "x",
           result := none, processing_time_ms := none, callback_url := none,
           callback_attempts := 0, created_at := 0, completed_at := none,
           error_message := none }] "id2" .CALLBACK_FAILED none none none 10).1.map
      (fun r => r.completed_at)) = [none] := by
  refine ⟨rfl, ?_, rfl⟩
  intro h
  exact absurd (Option.some.inj h) (by norm_num)

/-- C7 amended: `update_request_status` stamps `completed_at` with the
current time on every transition into COMPLETED, FAILED or CALLBACK_SENT —
overwriting any earlier value — and leaves it untouched on every other
transition, including CALLBACK_FAILED; so a record's `completed_at` can be
written on several transitions and is never set by the CALLBACK_FAILED
one. -/
theorem C7_completed_at_overwrite :
    ∀ (r : RequestRecord) (rest : List RequestRecord) (status : RequestStatus)
      (result : Option (List (String × String))) (ptime : Option ℚ)
      (err : Option String) (now : ℚ),
    (update_request_status (r :: rest) r.request_id status result ptime err now).1
        = applyStatusUpdate r status result ptime err now :: rest
    ∧ ((status = .COMPLETED ∨ status = .FAILED ∨ status = .CALLBACK_SENT) →
        (applyStatusUpdate r status result ptime err now).completed_at = some now)
    ∧ ((status = .PENDING ∨ status = .PROCESSING ∨ status = .CALLBACK_FAILED) →
        (applyStatusUpdate r status result ptime err now).completed_at
          = r.completed_at) := by
  intro r rest status result ptime err now
  refine ⟨?_, ?_, ?_⟩
  · unfold update_request_status
    have hp : (r.request_id == r.request_id) = true := by simp
    rw [if_pos (by simp [List.find?, hp])]
    unfold updateFirst
    rw [hp]
    simp
  · intro h
    unfold applyStatusUpdate
    rcases h with h | h | h <;> subst h <;> simp
  · intro h
    unfold applyStatusUpdate
    rcases h with h | h <;> [skip; rcases h with h | h] <;> subst h <;> simp

/-- C7 witness: a second COMPLETED transition at time 10 overwrites a
`completed_at` of 5. -/
theorem C7_completed_at_overwrite_witness :
    (applyStatusUpdate
      { request_id := "id1", mode := .ASYNC, status := .COMPLETED, input_data := "x",
        result := none, processing_time_ms := none, callback_url := none,
        callback_attempts := 0, created_at := 0, completed_at := some 5,
        error_message := none } .COMPLETED none none none 10).completed_at = some 10 :=
  (C7_completed_at_overwrite
    { request_id := "id1", mode := .ASYNC, status := .COMPLETED, input_data := "x",
      result := none, processing_time_ms := none, callback_url := none,
      callback_attempts := 0, created_at := 0, completed_at := some 5,
      error_message := none } [] .COMPLETED none none none 10).2.1 (Or.inl rfl)

/-- C8 counterexample: `_get_domain` keeps the port — two URLs on the same
host but different ports get different circuit keys, so they do not share
one circuit record; the claim's "ignoring scheme and port" fails for the
port. -/
theorem C8_port_counterexample :
    get_domain "http://example.com:8080/cb" = "example.com:8080"
    ∧ get_domain "http://example.com:9090/cb" = "example.com:9090"
    ∧ get_domain "http://example.com:8080/cb" ≠ get_domain "http://example.com:9090/cb"
    ∧ (urlparse "http://example.com:8080/cb").hostname
        = (urlparse "http://example.com:9090/cb").hostname := by
  exact ⟨rfl, rfl, by decide, rfl⟩

/-- C8 amended: the circuit key is the URL's netloc — the scheme is indeed
ignored (any `http://` and `https://` URL with the same remainder share a
key), but the netloc keeps an explicit port, so only destinations with the
same host *and* the same port (or no port) share one circuit record. -/
theorem C8_key_is_netloc :
    (∀ rest : List Char,
      get_domain ⟨'h' :: 't' :: 't' :: 'p' :: ':' :: '/' :: '/' :: rest⟩
        = get_domain ⟨'h' :: 't' :: 't' :: 'p' :: 's' :: ':' :: '/' :: '/' :: rest⟩)
    ∧ get_domain "http://example.com/cb" = "example.com"
    ∧ get_domain "https://example.com/x" = "example.com"
    ∧ get_domain "http://example.com:8080/cb" ≠ get_domain "https://example.com/cb" := by
  exact ⟨fun rest => rfl, rfl, rfl, by decide⟩

/-- C9 counterexample: the statistics call is not read-only — on a domain
with `failure_count` at the threshold and the reset timeout elapsed, its
`_is_circuit_open` call zeroes the count and deletes the state entry. -/
theorem C9_stats_mutation_counterexample :
    ((⟨3, 1, 5, 60, [("h", 5)], [("h", 0)]⟩ :
        CallbackService).get_circuit_breaker_stats 100).2.failed_callbacks = [("h", 0)]
    ∧ ((⟨3, 1, 5, 60, [("h", 5)], [("h", 0)]⟩ :
        CallbackService).get_circuit_breaker_stats 100).2.circuit_breaker_state = []
    ∧ ([("h", 5)] : List (String × Nat)) ≠ [("h", 0)]
    ∧ ([("h", (0 : ℚ))] : List (String × ℚ)) ≠ [] := by
  have hopen := is_circuit_open_reset ⟨3, 1, 5, 60, [("h", 5)], [("h", 0)]⟩ "h" 100 0
    (by rfl) (by decide) (by norm_num)
  have hsvc : ((⟨3, 1, 5, 60, [("h", 5)], [("h", 0)]⟩ :
      CallbackService).get_circuit_breaker_stats 100).2
      = ⟨3, 1, 5, 60, aset [("h", 5)] "h" 0, aerase [("h", 0)] "h"⟩ := by
    unfold CallbackService.get_circuit_breaker_stats
    have htrack : trackedDomains ⟨3, 1, 5, 60, [("h", 5)], [("h", 0)]⟩ = ["h"] := rfl
    rw [htrack]
    unfold statsGo
    rw [hopen]
    simp [statsGo]
  refine ⟨?_, ?_, by decide, by decide⟩
  · rw [hsvc]
    rfl
  · rw [hsvc]
    rfl

/-- The per-domain statistics loop, when no visited domain's circuit check
mutates the service, reports each domain's pre-call count and timestamp
and leaves the service unchanged. -/
theorem statsGo_pure (now : ℚ) :
    ∀ (ds : List String) (svc : CallbackService),
    (∀ d ∈ ds, (svc.is_circuit_open d now).2 = svc) →
    statsGo now ds svc
      = (ds.map (fun d =>
          (d, { state := if (svc.is_circuit_open d now).1 then "open" else "closed",
                failure_count := (alookup svc.failed_callbacks d).getD 0,
                last_failure_time := (alookup svc.circuit_breaker_state d).getD 0,
                circuit_open := (svc.is_circuit_open d now).1 })), svc) := by
  intro ds
  induction ds with
  | nil => intro svc _; rfl
  | cons d ds ih =>
    intro svc h
    unfold statsGo
    rcases he : svc.is_circuit_open d now with ⟨b, s⟩
    have hs : s = svc := by
      have hd := h d (by simp)
      rw [he] at hd
      exact hd
    subst hs
    dsimp only
    rw [ih s (fun x hx => h x (by simp [hx]))]
    simp [he]

/-- C9 amended: the snapshot reports, per tracked hostname, the state,
pre-call failure count and last failure time plus the global counts, and
it leaves both maps unchanged except for the reset side effect of the
circuit check: a hostname at the threshold whose last failure is older
than the reset timeout gets its count zeroed and its state entry removed
during the call. -/
theorem C9_stats_read_mostly :
    ∀ (svc : CallbackService) (now : ℚ),
    (∀ d ∈ trackedDomains svc, (svc.is_circuit_open d now).2 = svc) →
    (svc.get_circuit_breaker_stats now).2 = svc
    ∧ (svc.get_circuit_breaker_stats now).1.1
        = (trackedDomains svc).map (fun d =>
            (d, { state := if (svc.is_circuit_open d now).1 then "open" else "closed",
                  failure_count := (alookup svc.failed_callbacks d).getD 0,
                  last_failure_time := (alookup svc.circuit_breaker_state d).getD 0,
                  circuit_open := (svc.is_circuit_open d now).1 }))
    ∧ (svc.get_circuit_breaker_stats now).1.2.total_domains_tracked
        = (trackedDomains svc).length
    ∧ (svc.get_circuit_breaker_stats now).1.2.open_circuits
        = ((svc.get_circuit_breaker_stats now).1.1.filter
            (fun p => p.2.state == "open")).length
    ∧ (svc.get_circuit_breaker_stats now).1.2.circuit_threshold
        = svc.circuit_breaker_threshold
    ∧ (svc.get_circuit_breaker_stats now).1.2.reset_timeout
        = svc.circuit_breaker_reset_timeout := by
  intro svc now h
  have hpure := statsGo_pure now (trackedDomains svc) svc h
  unfold CallbackService.get_circuit_breaker_stats
  rw [hpure]
  exact ⟨rfl, rfl, by simp, rfl, rfl, rfl⟩

/-- C9 witness: on a service tracking one hostname below the threshold the
snapshot call reports it closed with count 2 and mutates nothing. -/
theorem C9_stats_read_mostly_witness :
    ((⟨3, 1, 5, 60, [("h", 2)], [("h", 0)]⟩ :
        CallbackService).get_circuit_breaker_stats 30).2
      = ⟨3, 1, 5, 60, [("h", 2)], [("h", 0)]⟩ := by
  refine (C9_stats_read_mostly ⟨3, 1, 5, 60, [("h", 2)], [("h", 0)]⟩ 30 ?_).1
  intro d hd
  have htrack : trackedDomains ⟨3, 1, 5, 60, [("h", 2)], [("h", 0)]⟩ = ["h"] := rfl
  rw [htrack] at hd
  have hd' : d = "h" := by simpa using hd
  subst hd'
  exact is_circuit_open_no_mutation _ "h" 30 (Or.inr (Or.inl (by decide)))

/-- C10 counterexample: the spec-side contract distinguishes `Ok` from
`NotFound`, but the code's `update_request_status` has no return
statement — it returns Python `None` whether the id was found or not, so
the outcome is not distinguishable from the return value. -/
theorem C10_transition_counterexample :
    transition_spec_outcome
        [{ request_id := "a", mode := .SYNC, status := .PENDING, input_data := "x",
           result := none, processing_time_ms := none, callback_url := none,
           callback_attempts := 0, created_at := 0, completed_at := none,
           error_message := none }] "a" = .Ok
    ∧ transition_spec_outcome [] "a" = .NotFound
    ∧ (update_request_status
        [{ request_id := "a", mode := .SYNC, status := .PENDING, input_data := "x",
           result := none, processing_time_ms := none, callback_url := none,
           callback_attempts := 0, created_at := 0, completed_at := none,
           error_message := none }] "a" .COMPLETED none none none 1).2
        = (update_request_status [] "a" .COMPLETED none none none 1).2 :=
  ⟨rfl, rfl, rfl⟩

/-- C10 amended: `update_request_status` returns `None` on every path; an
unknown id is a silent no-op that leaves every stored record unchanged,
and a known id updates the first matching record in place. -/
theorem C10_update_status_silent :
    ∀ (db : List RequestRecord) (rid : String) (status : RequestStatus)
      (result : Option (List (String × String))) (ptime : Option ℚ)
      (err : Option String) (now : ℚ),
    (update_request_status db rid status result ptime err now).2 = .nonePy
    ∧ (db.find? (fun r => r.request_id == rid) = none →
        update_request_status db rid status result ptime err now = (db, .nonePy))
    ∧ ((db.find? (fun r => r.request_id == rid)).isSome = true →
        (update_request_status db rid status result ptime err now).1
          = updateFirst (fun r => r.request_id == rid)
              (fun r => applyStatusUpdate r status result ptime err now) db) := by
  intro db rid status result ptime err now
  refine ⟨?_, ?_, ?_⟩
  · unfold update_request_status
    split <;> rfl
  · intro h
    simp [update_request_status, h]
  · intro h
    unfold update_request_status
    rw [if_pos h]

/-- C10 witness: on an empty store the call is a no-op returning `None`. -/
theorem C10_update_status_silent_witness :
    update_request_status [] "a" .COMPLETED none none none 1 = ([], .nonePy) :=
  (C10_update_status_silent [] "a" .COMPLETED none none none 1).2.1 rfl

end SyncAsyncApi
